import Mathlib

/-!
Verification of the alpaca-switch protocol/routing layer.

The Go sources are embedded shallowly:
* hardware backends (`SwitchBackend` interface) become a record of functions;
  an error returned by a Go function becomes `Except Err`, with the error
  message string kept verbatim;
* `float64` values become `Rat` (every value the program manipulates —
  0, 1 and `int64` device ranges — is exactly representable);
* the `uint32` server transaction counter becomes a `Nat` reduced mod `2^32`
  at each increment, mirroring `atomic.AddUint32`'s wrap-around;
* IPv4 source addresses become a record of four octets (the Go code parses
  dotted-quad strings with `net.ParseIP` before comparing octets);
* per-datagram processing of the UDP discovery listener becomes a state
  transition function returning the new dedup map and whether a reply is sent.
-/

/-- Go errors are modelled by their message string. -/
abbrev Err := String

/-- Shallow embedding of the Go `backend.SwitchBackend` interface
(`backend/backend.go`): one record of functions per backend instance.
`connect` holds the result `Connect()` would return. -/
structure SwitchBackend where
  numSwitches : Nat
  getName : Nat → String
  setName : Nat → String → Except Err Unit
  getDescription : Nat → String
  getCanWrite : Nat → Bool
  getMin : Nat → Rat
  getMax : Nat → Rat
  getStep : Nat → Rat
  getSwitch : Nat → Except Err Bool
  getSwitchValue : Nat → Except Err Rat
  setSwitch : Nat → Bool → Except Err Unit
  setSwitchValue : Nat → Rat → Except Err Unit
  connect : Except Err Unit
  isConnected : Bool

/-- `switchRef` from `backend/backend.go`: the backend handle plus the
local index a global index resolves to. -/
structure switchRef where
  backend : SwitchBackend
  localID : Nat

/-- The index table built by `NewRouter`'s nested loop: for each backend in
list order, one entry per local index `0 ≤ localID < b.NumSwitches()`. -/
def indexTable : List SwitchBackend → List switchRef
  | [] => []
  | b :: rest =>
      ((List.range b.numSwitches).map fun l => switchRef.mk b l) ++ indexTable rest

/-- `backend.Router`: the ordered backend list and the derived index table. -/
structure Router where
  backends : List SwitchBackend
  index : List switchRef

/-- `backend.NewRouter`. -/
def NewRouter (backends : List SwitchBackend) : Router :=
  { backends := backends, index := indexTable backends }

/-- `Router.NumSwitches`. -/
def Router.NumSwitches (r : Router) : Nat := r.index.length

/-- `errInvalidID` from `backend/backend.go`
(`fmt.Errorf("switch ID %d is out of range", id)`). -/
def errInvalidID (id : Int) : Err :=
  "switch ID " ++ toString id ++ " is out of range"

/-- `Router.ref`: table lookup, `none` when the global index is outside
`[0, len(index))`.  Go `int` indices are modelled as `Int`. -/
def Router.ref (r : Router) (globalID : Int) : Option switchRef :=
  if globalID < 0 ∨ (r.index.length : Int) ≤ globalID then none
  else r.index[globalID.toNat]?

/-- `Router.GetName`: delegate, or return `""` when out of range. -/
def Router.GetName (r : Router) (id : Int) : String :=
  match r.ref id with
  | some ref => ref.backend.getName ref.localID
  | none => ""

/-- `Router.SetName`: delegate, or return `errInvalidID`. -/
def Router.SetName (r : Router) (id : Int) (name : String) : Except Err Unit :=
  match r.ref id with
  | some ref => ref.backend.setName ref.localID name
  | none => .error (errInvalidID id)

/-- `Router.GetDescription`: delegate, or return `""`. -/
def Router.GetDescription (r : Router) (id : Int) : String :=
  match r.ref id with
  | some ref => ref.backend.getDescription ref.localID
  | none => ""

/-- `Router.GetCanWrite`: delegate, or return `false`. -/
def Router.GetCanWrite (r : Router) (id : Int) : Bool :=
  match r.ref id with
  | some ref => ref.backend.getCanWrite ref.localID
  | none => false

/-- `Router.GetMin`: delegate, or return `0`. -/
def Router.GetMin (r : Router) (id : Int) : Rat :=
  match r.ref id with
  | some ref => ref.backend.getMin ref.localID
  | none => 0

/-- `Router.GetMax`: delegate, or return `1`. -/
def Router.GetMax (r : Router) (id : Int) : Rat :=
  match r.ref id with
  | some ref => ref.backend.getMax ref.localID
  | none => 1

/-- `Router.GetStep`: delegate, or return `1`. -/
def Router.GetStep (r : Router) (id : Int) : Rat :=
  match r.ref id with
  | some ref => ref.backend.getStep ref.localID
  | none => 1

/-- `Router.GetSwitch`: delegate, or return `errInvalidID`. -/
def Router.GetSwitch (r : Router) (id : Int) : Except Err Bool :=
  match r.ref id with
  | some ref => ref.backend.getSwitch ref.localID
  | none => .error (errInvalidID id)

/-- `Router.GetSwitchValue`: delegate, or return `errInvalidID`. -/
def Router.GetSwitchValue (r : Router) (id : Int) : Except Err Rat :=
  match r.ref id with
  | some ref => ref.backend.getSwitchValue ref.localID
  | none => .error (errInvalidID id)

/-- `Router.SetSwitch`: delegate, or return `errInvalidID`. -/
def Router.SetSwitch (r : Router) (id : Int) (state : Bool) : Except Err Unit :=
  match r.ref id with
  | some ref => ref.backend.setSwitch ref.localID state
  | none => .error (errInvalidID id)

/-- `Router.SetSwitchValue`: delegate, or return `errInvalidID`. -/
def Router.SetSwitchValue (r : Router) (id : Int) (value : Rat) : Except Err Unit :=
  match r.ref id with
  | some ref => ref.backend.setSwitchValue ref.localID value
  | none => .error (errInvalidID id)

/-- Sum of the switch counts of the first `k` backends. -/
def sumTake (bs : List SwitchBackend) (k : Nat) : Nat :=
  ((bs.map SwitchBackend.numSwitches).take k).sum

theorem sumTake_zero (bs : List SwitchBackend) : sumTake bs 0 = 0 := rfl

theorem sumTake_succ_cons (b : SwitchBackend) (bs : List SwitchBackend) (k : Nat) :
    sumTake (b :: bs) (k + 1) = b.numSwitches + sumTake bs k := by
  simp [sumTake]

theorem indexTable_length (bs : List SwitchBackend) :
    (indexTable bs).length = (bs.map SwitchBackend.numSwitches).sum := by
  induction bs with
  | nil => rfl
  | cons b rest ih => simp [indexTable, ih]

theorem sumTake_le_total (bs : List SwitchBackend) (k : Nat) :
    sumTake bs k ≤ (bs.map SwitchBackend.numSwitches).sum := by
  induction bs generalizing k with
  | nil => simp [sumTake]
  | cons b rest ih =>
      cases k with
      | zero => simp [sumTake]
      | succ j =>
          rw [sumTake_succ_cons]
          simp only [List.map_cons, List.sum_cons]
          exact Nat.add_le_add_left (ih j) _

theorem indexTable_getElem (bs : List SwitchBackend) (k : Nat) (hk : k < bs.length)
    (g : Nat) (h1 : sumTake bs k ≤ g) (h2 : g < sumTake bs (k + 1)) :
    (indexTable bs)[g]? = some (switchRef.mk (bs.get ⟨k, hk⟩) (g - sumTake bs k)) := by
  induction bs generalizing k g with
  | nil => exact absurd hk (Nat.not_lt_zero k)
  | cons b rest ih =>
      cases k with
      | zero =>
          rw [sumTake_succ_cons, sumTake_zero, Nat.add_zero] at h2
          have hglen : g < ((List.range b.numSwitches).map fun l => switchRef.mk b l).length := by
            simpa using h2
          rw [indexTable, List.getElem?_append, if_pos hglen]
          simp [h2, sumTake]
      | succ j =>
          rw [sumTake_succ_cons] at h1 h2
          have hbg : b.numSwitches ≤ g := le_trans (Nat.le_add_right _ _) h1
          have hlen : ((List.range b.numSwitches).map fun l => switchRef.mk b l).length ≤ g := by
            simpa using hbg
          rw [indexTable, List.getElem?_append_right hlen]
          have hj : j < rest.length := Nat.lt_of_succ_lt_succ hk
          have h1' : sumTake rest j ≤ g - b.numSwitches := by omega
          have h2' : g - b.numSwitches < sumTake rest (j + 1) := by omega
          have := ih j hj (g - b.numSwitches) h1' h2'
          simp only [List.length_map, List.length_range]
          rw [this, sumTake_succ_cons]
          have : g - b.numSwitches - sumTake rest j = g - (b.numSwitches + sumTake rest j) := by
            omega
          simp [this]

/-! ## UDP discovery responder (`server/discovery.go`, subnet-filter version) -/

/-- An IPv4 address as four octets.  The Go code compares octets after
`net.ParseIP(...).To4()`; dotted-quad parsing is external to this layer. -/
structure IPv4 where
  a : Nat
  b : Nat
  c : Nat
  d : Nat
deriving DecidableEq

/-- `sameSubnet24`: true iff the two addresses share their first three octets. -/
def sameSubnet24 (ip refIP : IPv4) : Bool :=
  ip.a == refIP.a && ip.b == refIP.b && ip.c == refIP.c

/-- `strings.HasPrefix` on rune lists. -/
def hasPrefixChars : List Char → List Char → Bool
  | _, [] => true
  | [], _ :: _ => false
  | c :: cs, p :: ps => c == p && hasPrefixChars cs ps

/-- `unicode.IsSpace` as Go implements it: the Unicode White_Space property —
the Latin-1 cases tab (U+0009) through CR (U+000D), space, NEL (U+0085) and
NBSP (U+00A0), plus the higher White_Space code points U+1680, U+2000 through
U+200A, U+2028, U+2029, U+202F, U+205F and U+3000. -/
def goIsSpace (c : Char) : Bool :=
  let n := c.toNat
  (9 ≤ n && n ≤ 13) || n == 32 || n == 0x85 || n == 0xA0 ||
    n == 0x1680 || (0x2000 ≤ n && n ≤ 0x200A) ||
    n == 0x2028 || n == 0x2029 || n == 0x202F || n == 0x205F || n == 0x3000

/-- `strings.TrimSpace` on rune lists: drop `unicode.IsSpace` characters
from both ends. -/
def goTrimSpace (s : List Char) : List Char :=
  ((s.dropWhile goIsSpace).reverse.dropWhile goIsSpace).reverse

/-- The fixed discovery magic string. -/
def discoveryMagic : String := "alpacadiscovery1"

/-- The guard `strings.HasPrefix(strings.TrimSpace(msg), "alpacadiscovery1")`. -/
def hasDiscoveryMagic (payload : String) : Bool :=
  hasPrefixChars (goTrimSpace payload.data) discoveryMagic.data

/-- The `recentReplies` map (`map[string]time.Time`): association list from
source IP to the wall-clock time (nanoseconds) of the last reply. -/
abbrev RecentReplies := List (IPv4 × Int)

/-- Map lookup `recentReplies[srcIP]`. -/
def lookupRecent : RecentReplies → IPv4 → Option Int
  | [], _ => none
  | (k, t) :: rest, ip => if k = ip then some t else lookupRecent rest ip

/-- Map store `recentReplies[srcIP] = now`. -/
def insertRecent : RecentReplies → IPv4 → Int → RecentReplies
  | [], ip, now => [(ip, now)]
  | (k, t) :: rest, ip, now =>
      if k = ip then (ip, now) :: rest else (k, t) :: insertRecent rest ip now

/-- `2 * time.Second` in nanoseconds. -/
def twoSeconds : Int := 2 * 1000000000

/-- Per-datagram decision of `StartDiscovery` (the version with the /24
subnet filter and 2-second dedup): given the server's outbound-routing IP,
the current dedup map, the wall-clock time `now`, the datagram's source IP
and payload, return the new dedup map and whether a reply is sent.
The loop processes packets sequentially, so the state threading is exact. -/
def processDatagram (lanIP : IPv4) (recent : RecentReplies) (now : Int)
    (srcIP : IPv4) (payload : String) : RecentReplies × Bool :=
  if ¬ hasDiscoveryMagic payload then (recent, false)
  else if ¬ sameSubnet24 srcIP lanIP then (recent, false)
  else
    match lookupRecent recent srcIP with
    | some last =>
        if now - last < twoSeconds then (recent, false)
        else (insertRecent recent srcIP now, true)
    | none => (insertRecent recent srcIP now, true)

/-! ## HTTP protocol server (`server/api.go`) -/

/-- HTTP method of a request (only GET and PUT are routed). -/
inductive Method where
  | get
  | put
deriving DecidableEq

/-- An HTTP request as the parameter extraction layer sees it: query-string
parameters for GET, form-body parameters for PUT (`r.ParseForm`). -/
structure Request where
  method : Method
  query : List (String × String)
  form : List (String × String)

/-- `url.Values.Get` / `r.Form.Get`: first value under the exact key, or `""`. -/
def valuesGet (ps : List (String × String)) (name : String) : String :=
  match ps.find? (fun p => p.1 == name) with
  | some p => p.2
  | none => ""

/-- `strings.EqualFold`, modelled as ASCII-case-insensitive equality
(all parameter names in this protocol are ASCII). -/
def eqFold (x y : String) : Bool :=
  x.data.map Char.toLower == y.data.map Char.toLower

/-- The case-insensitive fallback scan over the parameter collection. -/
def anyCaseScan (ps : List (String × String)) (name : String) : String :=
  match ps.find? (fun p => eqFold p.1 name) with
  | some p => p.2
  | none => ""

/-- `getQueryAnyCase` / `getFormAnyCase`: exact match first, then the
case-insensitive scan. -/
def lookupAnyCase (ps : List (String × String)) (name : String) : String :=
  let v := valuesGet ps name
  if v ≠ "" then v else anyCaseScan ps name

/-- `getParamAnyCase`: query parameters for GET, form parameters otherwise. -/
def getParamAnyCase (req : Request) (name : String) : String :=
  match req.method with
  | .get => lookupAnyCase req.query name
  | .put => lookupAnyCase req.form name

/-- Decimal digit accumulator for `strconv.Atoi`. -/
def digitsVal : List Char → Nat → Option Nat
  | [], acc => some acc
  | c :: rest, acc =>
      if c.isDigit then digitsVal rest (acc * 10 + (c.toNat - 48)) else none

/-- `strconv.Atoi`: optional sign followed by at least one decimal digit.
(The `int64` range check is omitted; no claim exercises it.) -/
def atoi : String → Option Int
  | s =>
    match s.data with
    | [] => none
    | '+' :: rest =>
        if rest.isEmpty then none else (digitsVal rest 0).map Int.ofNat
    | '-' :: rest =>
        if rest.isEmpty then none else (digitsVal rest 0).map fun n => -(n : Int)
    | cs => (digitsVal cs 0).map Int.ofNat

/-- `strconv.ParseBool`. -/
def parseBool (v : String) : Except Err Bool :=
  if v == "1" || v == "t" || v == "T" || v == "TRUE" || v == "true" || v == "True" then
    .ok true
  else if v == "0" || v == "f" || v == "F" || v == "FALSE" || v == "false" || v == "False" then
    .ok false
  else
    .error ("strconv.ParseBool: parsing " ++ v ++ ": invalid syntax")

/-- `getClientTransactionID`: missing, malformed or negative values default to 0. -/
def getClientTransactionID (req : Request) : Int :=
  let v := getParamAnyCase req "ClientTransactionID"
  if v == "" then 0
  else
    match atoi v with
    | none => 0
    | some n => if n < 0 then 0 else n

/-- `getSwitchID`: required non-negative integer parameter `Id`. -/
def getSwitchID (req : Request) : Except Err Int :=
  let v := getParamAnyCase req "Id"
  if v == "" then .error "Id parameter missing"
  else
    match atoi v with
    | none => .error ("Id parameter invalid: " ++ v)
    | some n => if n < 0 then .error ("Id parameter invalid: " ++ v) else .ok n

/-- `getSwitchState`: required boolean parameter `State`. -/
def getSwitchState (req : Request) : Except Err Bool :=
  let v := getParamAnyCase req "State"
  if v == "" then .error "State parameter missing" else parseBool v

/-- `getConnected`: required boolean parameter `Connected`. -/
def getConnected (req : Request) : Except Err Bool :=
  let v := getParamAnyCase req "Connected"
  if v == "" then .error "Connected parameter missing" else parseBool v

/-- Reduction mod `2^32`, the value range of Go's `uint32`. -/
def uint32Mod (n : Nat) : Nat := n % 2 ^ 32

/-- `Server.nextTxnID`: `atomic.AddUint32(&s.serverTransactionID, 1)` —
increment with `uint32` wrap-around, returning the new value. -/
def nextTxnID (counter : Nat) : Nat := (counter + 1) % 2 ^ 32

/-- Counter value after `n` responses, starting from the zero-initialised
server.  Atomic increments serialise, so the ID attached to the `n`-th
response (in linearisation order) is `txnAfterCalls n`. -/
def txnAfterCalls : Nat → Nat
  | 0 => 0
  | n + 1 => nextTxnID (txnAfterCalls n)

/-- The `alpacaResponse` JSON envelope (`server/types.go`). -/
structure alpacaResponse where
  ClientTransactionID : Nat
  ServerTransactionID : Nat
  ErrorNumber : Int
  ErrorMessage : String

/-- `Server.prepareResponse`: echo the client transaction ID (cast to
`uint32`) and attach a freshly incremented server transaction ID. -/
def prepareResponse (counter : Nat) (req : Request) : alpacaResponse × Nat :=
  let c := nextTxnID counter
  ({ ClientTransactionID := uint32Mod (getClientTransactionID req).toNat,
     ServerTransactionID := c, ErrorNumber := 0, ErrorMessage := "" }, c)

/-- The typed `Value` field of a response body. -/
inductive JsonValue where
  | strV (s : String)
  | boolV (b : Bool)
  | numV (q : Rat)
  | intV (n : Int)
deriving DecidableEq

/-- Observable effect of `sendJSON`: the HTTP status, the envelope and the
typed value (absent for `putResponse`). -/
structure SentResponse where
  status : Nat
  base : alpacaResponse
  value : Option JsonValue

/-- `Server.badRequest`: 400 with error code `0x400` and the error message
both echoed in `Value` and in `ErrorMessage`. -/
def badRequest (counter : Nat) (req : Request) (e : Err) : SentResponse × Nat :=
  let p := prepareResponse counter req
  ({ status := 400,
     base := { p.1 with ErrorNumber := 0x400, ErrorMessage := e },
     value := some (.strV e) }, p.2)

/-- `Server.handleGetSwitchName`. -/
def handleGetSwitchName (counter : Nat) (r : Router) (req : Request) :
    SentResponse × Nat :=
  match getSwitchID req with
  | .error e => badRequest counter req e
  | .ok id =>
      let p := prepareResponse counter req
      ({ status := 200, base := p.1, value := some (.strV (r.GetName id)) }, p.2)

/-- `Server.handleSetSwitch`. -/
def handleSetSwitch (counter : Nat) (r : Router) (req : Request) :
    SentResponse × Nat :=
  match getSwitchID req with
  | .error e => badRequest counter req e
  | .ok id =>
      match getSwitchState req with
      | .error e => badRequest counter req e
      | .ok st =>
          match r.SetSwitch id st with
          | .error e => badRequest counter req e
          | .ok _ =>
              let p := prepareResponse counter req
              ({ status := 200, base := p.1, value := none }, p.2)

/-- `Server.handleNotSupported`: fixed 400 with "action not supported". -/
def handleNotSupported (counter : Nat) (req : Request) : SentResponse × Nat :=
  let p := prepareResponse counter req
  ({ status := 400,
     base := { p.1 with ErrorNumber := 0x400, ErrorMessage := "action not supported" },
     value := some (.strV "not supported") }, p.2)

/-- One iteration of the connect/disconnect fan-out loop: which backend
(by position) was called, and — for `Connect()` — the result the loop
discarded with `_ = b.Connect()`. -/
inductive LifecycleCall where
  | connectCall (idx : Nat) (result : Except Err Unit)
  | disconnectCall (idx : Nat)

/-- The fan-out loop `for _, b := range s.router.Backends() { ... }`,
started at position `i`. -/
def fanOutFrom (i : Nat) (bs : List SwitchBackend) (connect : Bool) :
    List LifecycleCall :=
  match bs with
  | [] => []
  | b :: rest =>
      (if connect then LifecycleCall.connectCall i b.connect
       else LifecycleCall.disconnectCall i) :: fanOutFrom (i + 1) rest connect

/-- `Server.handleSetConnected`: parse `Connected`; on failure reply 400;
otherwise fan out `Connect()`/`Disconnect()` to every backend (results
discarded) and reply success.  The third component logs the calls made. -/
def handleSetConnected (counter : Nat) (r : Router) (req : Request) :
    SentResponse × Nat × List LifecycleCall :=
  match getConnected req with
  | .error e =>
      let p := prepareResponse counter req
      ({ status := 400,
         base := { p.1 with ErrorNumber := 0x400, ErrorMessage := e },
         value := some (.strV e) }, p.2, [])
  | .ok connect =>
      let calls := fanOutFrom 0 r.backends connect
      let p := prepareResponse counter req
      ({ status := 200, base := p.1, value := none }, p.2, calls)

/-! ## Hikvision backend (`backend/hikvision/hikvision.go`, cached-state version) -/

/-- One camera switch: config name, custom name, cached IR state. -/
structure HikCamera where
  name : String
  customName : String
  state : Bool
deriving DecidableEq

/-- The Hikvision backend: camera list and connected flag. -/
structure HikBackend where
  cameras : List HikCamera
  connected : Bool
deriving DecidableEq

/-- `fmt.Errorf("invalid camera id %d", id)`. -/
def invalidCameraID (id : Int) : Err := "invalid camera id " ++ toString id

/-- `hikvision.Backend.GetSwitch`: the cached on/off state. -/
def HikBackend.GetSwitch (b : HikBackend) (id : Int) : Except Err Bool :=
  if h : id < 0 ∨ (b.cameras.length : Int) ≤ id then .error (invalidCameraID id)
  else .ok (b.cameras.get ⟨id.toNat, by omega⟩).state

/-- `hikvision.Backend.GetSwitchValue`: 1.0 when on, 0.0 when off. -/
def HikBackend.GetSwitchValue (b : HikBackend) (id : Int) : Except Err Rat :=
  match b.GetSwitch id with
  | .error e => .error e
  | .ok true => .ok 1
  | .ok false => .ok 0

/-- `hikvision.Backend.GetMin` (always 0). -/
def HikBackend.GetMin (_ : HikBackend) (_ : Int) : Rat := 0

/-- `hikvision.Backend.GetMax` (always 1). -/
def HikBackend.GetMax (_ : HikBackend) (_ : Int) : Rat := 1

/-- `hikvision.Backend.GetStep` (always 1). -/
def HikBackend.GetStep (_ : HikBackend) (_ : Int) : Rat := 1

/-- `hikvision.Backend.SetSwitch`: bounds check, the `setIRLight` HTTP call
(whose outcome is the external input `hw`), then cache update.  Returns the
updated backend on success. -/
def HikBackend.SetSwitch (hw : Except Err Unit) (b : HikBackend) (id : Int)
    (state : Bool) : Except Err HikBackend :=
  if h : id < 0 ∨ (b.cameras.length : Int) ≤ id then .error (invalidCameraID id)
  else
    match hw with
    | .error e => .error e
    | .ok _ =>
        .ok { b with cameras :=
          b.cameras.set id.toNat ({ b.cameras.get ⟨id.toNat, by omega⟩ with state := state }) }

/-- `hikvision.Backend.SetSwitchValue`: `b.SetSwitch(id, value != 0)`. -/
def HikBackend.SetSwitchValue (hw : Except Err Unit) (b : HikBackend) (id : Int)
    (value : Rat) : Except Err HikBackend :=
  HikBackend.SetSwitch hw b id (if value = 0 then false else true)

/-! ## Mi backend (`backend/mi/mi.go`) -/

/-- One Mi smart plug: `int64` range fields and cached value, modelled as
`Int` (`float64` conversions of these are exact for every claimed input). -/
structure MiDevice where
  name : String
  description : String
  min : Int
  max : Int
  step : Int
  canwrite : Bool
  value : Int
deriving DecidableEq

/-- The Mi backend: device list and connected flag. -/
structure MiBackend where
  devices : List MiDevice
  connected : Bool
deriving DecidableEq

/-- `fmt.Errorf("invalid device id %d", id)`. -/
def invalidDeviceID (id : Int) : Err := "invalid device id " ++ toString id

/-- `mi.Backend.GetSwitch`: errors on a ranged device (`Max > 1`),
otherwise `Value != 0`. -/
def MiBackend.GetSwitch (b : MiBackend) (id : Int) : Except Err Bool :=
  if h : id < 0 ∨ (b.devices.length : Int) ≤ id then .error (invalidDeviceID id)
  else
    let dev := b.devices.get ⟨id.toNat, by omega⟩
    if 1 < dev.max then .error "device is not a simple on/off switch"
    else .ok (if dev.value = 0 then false else true)

/-- `mi.Backend.GetSwitchValue`: `float64(Value)`. -/
def MiBackend.GetSwitchValue (b : MiBackend) (id : Int) : Except Err Rat :=
  if h : id < 0 ∨ (b.devices.length : Int) ≤ id then .error (invalidDeviceID id)
  else .ok ((b.devices.get ⟨id.toNat, by omega⟩).value : Rat)

/-- `mi.Backend.GetMin`: `float64(Min)` for a valid id, 0 otherwise. -/
def MiBackend.GetMin (b : MiBackend) (id : Int) : Rat :=
  if h : id < 0 ∨ (b.devices.length : Int) ≤ id then 0
  else ((b.devices.get ⟨id.toNat, by omega⟩).min : Rat)

/-- `mi.Backend.GetMax`: `float64(Max)` for a valid id, 1 otherwise. -/
def MiBackend.GetMax (b : MiBackend) (id : Int) : Rat :=
  if h : id < 0 ∨ (b.devices.length : Int) ≤ id then 1
  else ((b.devices.get ⟨id.toNat, by omega⟩).max : Rat)

/-- `mi.Backend.SetSwitch`: bounds check, the `miOnOff` UDP exchange (whose
outcome is the external input `hw`), then the cache update `Value = 1/0`.
Returns the updated backend on success. -/
def MiBackend.SetSwitch (hw : Except Err Unit) (b : MiBackend) (id : Int)
    (state : Bool) : Except Err MiBackend :=
  if h : id < 0 ∨ (b.devices.length : Int) ≤ id then .error (invalidDeviceID id)
  else
    match hw with
    | .error e => .error e
    | .ok _ =>
        let dev := b.devices.get ⟨id.toNat, by omega⟩
        .ok { b with devices :=
          b.devices.set id.toNat ({ dev with value := if state then 1 else 0 }) }

/-- `mi.Backend.SetSwitchValue`: `b.SetSwitch(id, value != 0)`. -/
def MiBackend.SetSwitchValue (hw : Except Err Unit) (b : MiBackend) (id : Int)
    (value : Rat) : Except Err MiBackend :=
  MiBackend.SetSwitch hw b id (if value = 0 then false else true)

/-! ## Helper lemmas -/

theorem ref_out_of_range (r : Router) (g : Int)
    (h : g < 0 ∨ ((r.NumSwitches : Nat) : Int) ≤ g) : r.ref g = none := by
  unfold Router.ref
  exact if_pos h

theorem lookupRecent_insertRecent (m : RecentReplies) (ip : IPv4) (now : Int) :
    lookupRecent (insertRecent m ip now) ip = some now := by
  induction m with
  | nil => simp [insertRecent, lookupRecent]
  | cons p rest ih =>
      obtain ⟨k, t⟩ := p
      by_cases h : k = ip <;> simp [insertRecent, lookupRecent, h, ih]

theorem fanOutFrom_length (i : Nat) (bs : List SwitchBackend) (c : Bool) :
    (fanOutFrom i bs c).length = bs.length := by
  induction bs generalizing i with
  | nil => rfl
  | cons b rest ih => simp [fanOutFrom, ih]

theorem fanOutFrom_getElem (i : Nat) (bs : List SwitchBackend) (c : Bool) (j : Nat) :
    (fanOutFrom i bs c)[j]? =
      bs[j]?.map (fun b =>
        if c then LifecycleCall.connectCall (i + j) b.connect
        else LifecycleCall.disconnectCall (i + j)) := by
  induction bs generalizing i j with
  | nil => simp [fanOutFrom]
  | cons b rest ih =>
      cases j with
      | zero => simp [fanOutFrom]
      | succ j =>
          have := ih (i + 1) j
          simp only [fanOutFrom, List.getElem?_cons_succ, this]
          have harith : i + 1 + j = i + (j + 1) := by omega
          rw [harith]

/-! ## Concrete fixtures used by witnesses and counterexamples -/

/-- A backend with no switches and inert operations. -/
def dummySwitchBackend : SwitchBackend where
  numSwitches := 0
  getName := fun _ => ""
  setName := fun _ _ => .ok ()
  getDescription := fun _ => ""
  getCanWrite := fun _ => false
  getMin := fun _ => 0
  getMax := fun _ => 1
  getStep := fun _ => 1
  getSwitch := fun _ => .ok false
  getSwitchValue := fun _ => .ok 0
  setSwitch := fun _ _ => .ok ()
  setSwitchValue := fun _ _ => .ok ()
  connect := .ok ()
  isConnected := false

/-- Backend A of the two-backend scenario: 2 switches named `A0`, `A1`. -/
def demoA : SwitchBackend :=
  { dummySwitchBackend with numSwitches := 2, getName := fun i => "A" ++ toString i }

/-- Backend B of the two-backend scenario: 1 switch named `B0`. -/
def demoB : SwitchBackend :=
  { dummySwitchBackend with numSwitches := 1, getName := fun i => "B" ++ toString i }

/-- The ordered backend list of the scenario: A before B. -/
def demoBackends : List SwitchBackend := [demoA, demoB]

/-- The 3-switch router built from A then B. -/
def demoRouter : Router := NewRouter demoBackends

/-- A one-switch backend whose `Connect()` fails. -/
def failBackend : SwitchBackend :=
  { dummySwitchBackend with numSwitches := 1, connect := .error "device unreachable" }

/-- GET request carrying `Id=5`. -/
def reqId5 : Request := { method := .get, query := [("Id", "5")], form := [] }

/-- PUT request carrying `Connected=true`. -/
def reqConnTrue : Request := { method := .put, query := [], form := [("Connected", "true")] }

/-- A typical LAN outbound IP. -/
def lanDemo : IPv4 := ⟨192, 168, 1, 10⟩

/-- The loopback source address `127.0.0.1`. -/
def loopbackIP : IPv4 := ⟨127, 0, 0, 1⟩

/-- A source on the same /24 as `lanDemo`. -/
def srcDemo : IPv4 := ⟨192, 168, 1, 20⟩

/-! ## C1 -/

/-- C1 as stated is false: for an out-of-range global index, `Router.GetName`
does not produce an `InvalidIndex` error — it returns the empty string, and the
`getswitchname` endpoint turns that into a success envelope (HTTP 200,
`ErrorNumber = 0`, empty error message) on the 3-switch demo router with
`Id=5`. -/
theorem c1_counterexample :
    demoRouter.NumSwitches = 3 ∧
    Router.GetName demoRouter 5 = "" ∧
    (handleGetSwitchName 0 demoRouter reqId5).1.status = 200 ∧
    (handleGetSwitchName 0 demoRouter reqId5).1.base.ErrorNumber = 0 ∧
    (handleGetSwitchName 0 demoRouter reqId5).1.base.ErrorMessage = "" := by
  refine ⟨by decide, by decide, by decide, by decide, by decide⟩

/-- C1 (amended): for every global index outside `[0, total)`, the
error-returning Router operations (`SetName`, `GetSwitch`, `GetSwitchValue`,
`SetSwitch`, `SetSwitchValue`) return the `InvalidIndex` error, while
`GetName`/`GetDescription`/`GetCanWrite`/`GetMin`/`GetMax`/`GetStep` return
the fixed defaults `""`, `""`, `false`, `0`, `1`, `1` without signalling an
error; in every case the result is the same for all backend lists, so no
backend call is performed. -/
theorem c1_out_of_range (bs : List SwitchBackend) (g : Int) (nm : String)
    (st : Bool) (v : Rat)
    (h : g < 0 ∨ (((NewRouter bs).NumSwitches : Nat) : Int) ≤ g) :
    Router.SetName (NewRouter bs) g nm = .error (errInvalidID g) ∧
    Router.GetSwitch (NewRouter bs) g = .error (errInvalidID g) ∧
    Router.GetSwitchValue (NewRouter bs) g = .error (errInvalidID g) ∧
    Router.SetSwitch (NewRouter bs) g st = .error (errInvalidID g) ∧
    Router.SetSwitchValue (NewRouter bs) g v = .error (errInvalidID g) ∧
    Router.GetName (NewRouter bs) g = "" ∧
    Router.GetDescription (NewRouter bs) g = "" ∧
    Router.GetCanWrite (NewRouter bs) g = false ∧
    Router.GetMin (NewRouter bs) g = 0 ∧
    Router.GetMax (NewRouter bs) g = 1 ∧
    Router.GetStep (NewRouter bs) g = 1 := by
  have hr : (NewRouter bs).ref g = none := ref_out_of_range _ _ h
  exact ⟨by simp [Router.SetName, hr], by simp [Router.GetSwitch, hr],
    by simp [Router.GetSwitchValue, hr], by simp [Router.SetSwitch, hr],
    by simp [Router.SetSwitchValue, hr], by simp [Router.GetName, hr],
    by simp [Router.GetDescription, hr], by simp [Router.GetCanWrite, hr],
    by simp [Router.GetMin, hr], by simp [Router.GetMax, hr],
    by simp [Router.GetStep, hr]⟩

/-- Witness for C1 (amended) at the demo router and global index 5. -/
theorem c1_witness :
    ((5 : Int) < 0 ∨ (((NewRouter demoBackends).NumSwitches : Nat) : Int) ≤ 5) ∧
    (Router.SetName (NewRouter demoBackends) 5 "x" = .error (errInvalidID 5) ∧
     Router.GetSwitch (NewRouter demoBackends) 5 = .error (errInvalidID 5) ∧
     Router.GetSwitchValue (NewRouter demoBackends) 5 = .error (errInvalidID 5) ∧
     Router.SetSwitch (NewRouter demoBackends) 5 true = .error (errInvalidID 5) ∧
     Router.SetSwitchValue (NewRouter demoBackends) 5 1 = .error (errInvalidID 5) ∧
     Router.GetName (NewRouter demoBackends) 5 = "" ∧
     Router.GetDescription (NewRouter demoBackends) 5 = "" ∧
     Router.GetCanWrite (NewRouter demoBackends) 5 = false ∧
     Router.GetMin (NewRouter demoBackends) 5 = 0 ∧
     Router.GetMax (NewRouter demoBackends) 5 = 1 ∧
     Router.GetStep (NewRouter demoBackends) 5 = 1) :=
  ⟨by decide, c1_out_of_range demoBackends 5 "x" true 1 (by decide)⟩

/-! ## C9 -/

/-- C9: for every global index outside `[0, total)`, the Router's
non-error-returning getters yield fixed neutral defaults: `GetName` and
`GetDescription` return `""`, `GetCanWrite` returns `false`, `GetMin`
returns `0`, `GetMax` returns `1`, `GetStep` returns `1`. -/
theorem c9_neutral_defaults (bs : List SwitchBackend) (g : Int)
    (h : g < 0 ∨ (((NewRouter bs).NumSwitches : Nat) : Int) ≤ g) :
    Router.GetName (NewRouter bs) g = "" ∧
    Router.GetDescription (NewRouter bs) g = "" ∧
    Router.GetCanWrite (NewRouter bs) g = false ∧
    Router.GetMin (NewRouter bs) g = 0 ∧
    Router.GetMax (NewRouter bs) g = 1 ∧
    Router.GetStep (NewRouter bs) g = 1 := by
  have hr : (NewRouter bs).ref g = none := ref_out_of_range _ _ h
  exact ⟨by simp [Router.GetName, hr], by simp [Router.GetDescription, hr],
    by simp [Router.GetCanWrite, hr], by simp [Router.GetMin, hr],
    by simp [Router.GetMax, hr], by simp [Router.GetStep, hr]⟩

/-- Witness for C9 at the demo router and the negative global index `-1`. -/
theorem c9_witness :
    ((-1 : Int) < 0 ∨ (((NewRouter demoBackends).NumSwitches : Nat) : Int) ≤ -1) ∧
    (Router.GetName (NewRouter demoBackends) (-1) = "" ∧
     Router.GetDescription (NewRouter demoBackends) (-1) = "" ∧
     Router.GetCanWrite (NewRouter demoBackends) (-1) = false ∧
     Router.GetMin (NewRouter demoBackends) (-1) = 0 ∧
     Router.GetMax (NewRouter demoBackends) (-1) = 1 ∧
     Router.GetStep (NewRouter demoBackends) (-1) = 1) :=
  ⟨by decide, c9_neutral_defaults demoBackends (-1) (by decide)⟩

/-! ## C2 -/

/-- C2: `NumSwitches()` of a router built from backends with counts
`[c0, c1, …]` is `Σ ci`, and a global index `g` with
`Σ_{i<k} ci ≤ g < Σ_{i≤k} ci` (i.e. `k` is the smallest index with
`g < Σ_{i≤k} ci`) resolves to backend `k` with local index `g − Σ_{i<k} ci`. -/
theorem c2_resolution (bs : List SwitchBackend) (k : Nat) (hk : k < bs.length)
    (g : Nat) (h1 : sumTake bs k ≤ g) (h2 : g < sumTake bs (k + 1)) :
    (NewRouter bs).NumSwitches = (bs.map SwitchBackend.numSwitches).sum ∧
    (NewRouter bs).ref (g : Int) =
      some (switchRef.mk (bs.get ⟨k, hk⟩) (g - sumTake bs k)) := by
  constructor
  · exact indexTable_length bs
  · have hlt : g < (indexTable bs).length := by
      rw [indexTable_length]
      exact lt_of_lt_of_le h2 (sumTake_le_total bs (k + 1))
    unfold Router.ref NewRouter
    rw [if_neg]
    · simpa using indexTable_getElem bs k hk g h1 h2
    · rintro (hneg | hge)
      · omega
      · simp only at hge
        omega

/-- Witness for C2: with backend A (2 switches) listed before backend B
(1 switch), the total is 3 and global index 2 resolves into B with local
index 0; indices 0 and 1 resolve into A. -/
theorem c2_witness :
    (sumTake demoBackends 1 ≤ 2 ∧ 2 < sumTake demoBackends 2) ∧
    ((NewRouter demoBackends).NumSwitches =
        (demoBackends.map SwitchBackend.numSwitches).sum ∧
     (NewRouter demoBackends).ref ((2 : Nat) : Int) =
        some (switchRef.mk (demoBackends.get ⟨1, by decide⟩) (2 - sumTake demoBackends 1))) ∧
    ((NewRouter demoBackends).ref ((0 : Nat) : Int) =
        some (switchRef.mk (demoBackends.get ⟨0, by decide⟩) (0 - sumTake demoBackends 0))) ∧
    Router.GetName demoRouter 0 = "A0" ∧
    Router.GetName demoRouter 1 = "A1" ∧
    Router.GetName demoRouter 2 = "B0" :=
  ⟨⟨by decide, by decide⟩,
   c2_resolution demoBackends 1 (by decide) 2 (by decide) (by decide),
   (c2_resolution demoBackends 0 (by decide) 0 (by decide) (by decide)).2,
   by decide, by decide, by decide⟩

/-! ## C3 -/

theorem txnAfterCalls_eq_mod (n : Nat) : txnAfterCalls n = n % 2 ^ 32 := by
  induction n with
  | zero => rfl
  | succ m ih =>
      show nextTxnID (txnAfterCalls m) = (m + 1) % 2 ^ 32
      rw [ih, nextTxnID, Nat.mod_add_mod]

/-- C3 as stated is false: the server transaction counter is a `uint32`, so
the ID sequence is not pairwise distinct over an unbounded process lifetime —
the `2^32 + 1`-st response carries the same server transaction ID as the
first, and the `2^32`-nd response carries `0`, breaking strict increase. -/
theorem c3_counterexample :
    txnAfterCalls (2 ^ 32 + 1) = txnAfterCalls 1 ∧
    (2 ^ 32 + 1 : Nat) ≠ 1 ∧
    txnAfterCalls (2 ^ 32) = 0 ∧
    txnAfterCalls (2 ^ 32) < txnAfterCalls 1 := by
  simp only [txnAfterCalls_eq_mod]
  refine ⟨by decide, by decide, by decide, by decide⟩

/-- C3 (amended): in linearisation order of the atomic increments, the `n`-th
response carries server transaction ID `n % 2^32`; for the first `2^32 − 1`
responses the IDs are therefore exactly `1, 2, 3, …` — pairwise distinct,
gapless and strictly increasing, starting at 1 — and the counter wraps to `0`
on response `2^32`. -/
theorem c3_txn_sequence (i j : Nat) (hij : i < j) (hj : j < 2 ^ 32) :
    txnAfterCalls i = i ∧ txnAfterCalls j = j ∧
    txnAfterCalls i < txnAfterCalls j ∧
    txnAfterCalls 1 = 1 ∧ txnAfterCalls (2 ^ 32) = 0 := by
  have h1 : txnAfterCalls i = i := by
    rw [txnAfterCalls_eq_mod]; exact Nat.mod_eq_of_lt (lt_trans hij hj)
  have h2 : txnAfterCalls j = j := by
    rw [txnAfterCalls_eq_mod]; exact Nat.mod_eq_of_lt hj
  refine ⟨h1, h2, by rw [h1, h2]; exact hij, by rw [txnAfterCalls_eq_mod]; decide, ?_⟩
  rw [txnAfterCalls_eq_mod]
  exact Nat.mod_self _

/-- Witness for C3 (amended) at responses 1 and 2. -/
theorem c3_witness :
    (1 < 2 ∧ 2 < 2 ^ 32) ∧
    (txnAfterCalls 1 = 1 ∧ txnAfterCalls 2 = 2 ∧
     txnAfterCalls 1 < txnAfterCalls 2 ∧
     txnAfterCalls 1 = 1 ∧ txnAfterCalls (2 ^ 32) = 0) :=
  ⟨⟨by decide, by norm_num⟩,
   c3_txn_sequence 1 2 (by decide) (by norm_num)⟩

/-! ## C4 -/

/-- C4 as stated is false: a magic-carrying probe from `127.0.0.1` gets no
reply when the server's outbound IP is a typical LAN address — the loopback
source fails the /24 filter and is discarded; there is no loopback
exemption. -/
theorem c4_counterexample :
    hasDiscoveryMagic "alpacadiscovery1" = true ∧
    processDatagram lanDemo [] 0 loopbackIP "alpacadiscovery1" = ([], false) := by
  refine ⟨by decide, by decide⟩

/-- C4 (amended): the subnet filter has no loopback exemption — a probe from
`127.0.0.1` is discarded without a reply (and without touching the dedup
state) whenever the loopback address does not share its first three octets
with the server's outbound-routing IP. -/
theorem c4_loopback_filtered (lanIP : IPv4) (recent : RecentReplies)
    (now : Int) (payload : String)
    (h : sameSubnet24 loopbackIP lanIP = false) :
    processDatagram lanIP recent now loopbackIP payload = (recent, false) := by
  by_cases hm : hasDiscoveryMagic payload <;> simp [processDatagram, hm, h]

/-- Witness for C4 (amended) at a 10.x outbound IP. -/
theorem c4_witness :
    sameSubnet24 loopbackIP ⟨10, 0, 0, 5⟩ = false ∧
    processDatagram ⟨10, 0, 0, 5⟩ [] 7 loopbackIP "alpacadiscovery1probe" = ([], false) :=
  ⟨by decide, c4_loopback_filtered ⟨10, 0, 0, 5⟩ [] 7 "alpacadiscovery1probe" (by decide)⟩

/-! ## C5 -/

/-- C5 as stated is false: the listener trims whitespace before the prefix
check, so a datagram whose payload is `" alpacadiscovery1"` — which does not
begin with the magic string — still gets a reply (from an on-subnet,
not-yet-seen source). -/
theorem c5_counterexample :
    hasPrefixChars " alpacadiscovery1".data discoveryMagic.data = false ∧
    processDatagram lanDemo [] 0 srcDemo " alpacadiscovery1" = ([(srcDemo, 0)], true) := by
  refine ⟨by decide, by decide⟩

/-- C5 (amended): a datagram whose payload, after trimming leading and
trailing whitespace, does not begin with the magic string `alpacadiscovery1`
is discarded silently: no reply is sent and the dedup state is unchanged. -/
theorem c5_no_magic_no_reply (lanIP srcIP : IPv4) (recent : RecentReplies)
    (now : Int) (payload : String)
    (h : hasDiscoveryMagic payload = false) :
    processDatagram lanIP recent now srcIP payload = (recent, false) := by
  simp [processDatagram, h]

/-- Witness for C5 (amended) on the payload `"hello"`. -/
theorem c5_witness :
    hasDiscoveryMagic "hello" = false ∧
    processDatagram lanDemo [(srcDemo, 0)] 9 srcDemo "hello" = ([(srcDemo, 0)], false) :=
  ⟨by decide, c5_no_magic_no_reply lanDemo srcDemo [(srcDemo, 0)] 9 "hello" (by decide)⟩

/-! ## C6 -/

/-- C6: dedup behaviour of the discovery responder, for a valid probe (magic
present, source on the server's /24): a source with no recorded reply gets a
reply and its timestamp recorded; a second valid probe from the same source
strictly within 2 seconds is discarded with no reply and no state change; a
source whose recorded reply is at least 2 seconds old is answered again (and
re-stamped).  Hence two valid probes from the same fresh source within 2
seconds produce exactly one reply. -/
theorem c6_dedup_window (lanIP srcIP : IPv4) (recent recent2 : RecentReplies)
    (now now2 now3 last : Int) (payload payload2 payload3 : String)
    (hp : hasDiscoveryMagic payload = true)
    (hp2 : hasDiscoveryMagic payload2 = true)
    (hp3 : hasDiscoveryMagic payload3 = true)
    (hs : sameSubnet24 srcIP lanIP = true)
    (hfresh : lookupRecent recent srcIP = none)
    (hwin : now2 - now < twoSeconds)
    (hlast : lookupRecent recent2 srcIP = some last)
    (hstale : twoSeconds ≤ now3 - last) :
    processDatagram lanIP recent now srcIP payload =
      (insertRecent recent srcIP now, true) ∧
    processDatagram lanIP (insertRecent recent srcIP now) now2 srcIP payload2 =
      (insertRecent recent srcIP now, false) ∧
    processDatagram lanIP recent2 now3 srcIP payload3 =
      (insertRecent recent2 srcIP now3, true) := by
  refine ⟨?_, ?_, ?_⟩
  · simp [processDatagram, hp, hs, hfresh]
  · simp [processDatagram, hp2, hs, lookupRecent_insertRecent, hwin]
  · simp only [processDatagram, hp3, hs, hlast]
    simp [hstale, not_lt.mpr hstale]

/-- Witness for C6: a first probe at t=100 ns is answered, a second probe
1 s later is suppressed, and a probe whose last recorded reply is 3 s old is
answered again. -/
theorem c6_witness :
    (hasDiscoveryMagic "alpacadiscovery1" = true ∧
     sameSubnet24 srcDemo lanDemo = true ∧
     lookupRecent [] srcDemo = none ∧
     (1000000100 : Int) - 100 < twoSeconds ∧
     lookupRecent [(srcDemo, 0)] srcDemo = some 0 ∧
     twoSeconds ≤ (3000000000 : Int) - 0) ∧
    (processDatagram lanDemo [] 100 srcDemo "alpacadiscovery1" =
       (insertRecent [] srcDemo 100, true) ∧
     processDatagram lanDemo (insertRecent [] srcDemo 100) 1000000100 srcDemo
         "alpacadiscovery1" = (insertRecent [] srcDemo 100, false) ∧
     processDatagram lanDemo [(srcDemo, 0)] 3000000000 srcDemo
         "alpacadiscovery1" = (insertRecent [(srcDemo, 0)] srcDemo 3000000000, true)) :=
  ⟨⟨by decide, by decide, by decide, by decide, by decide, by decide⟩,
   c6_dedup_window lanDemo srcDemo [] [(srcDemo, 0)] 100 1000000100 3000000000 0
     "alpacadiscovery1" "alpacadiscovery1" "alpacadiscovery1"
     (by decide) (by decide) (by decide) (by decide) (by decide) (by decide)
     (by decide) (by decide)⟩

/-! ## C7 -/

theorem hik_set_get (hik hikAfter : HikBackend) (id : Int) (s : Bool)
    (h : HikBackend.SetSwitch (.ok ()) hik id s = .ok hikAfter) :
    HikBackend.GetSwitch hikAfter id = .ok s := by
  unfold HikBackend.SetSwitch at h
  by_cases hb : id < 0 ∨ (hik.cameras.length : Int) ≤ id
  · rw [dif_pos hb] at h; cases h
  · rw [dif_neg hb] at h
    injection h with hA
    subst hA
    unfold HikBackend.GetSwitch
    rw [dif_neg (by simpa [List.length_set] using hb)]
    simp [List.get_eq_getElem]

theorem hik_set_get_value (hik hikAfter : HikBackend) (id : Int) (v : Rat)
    (h : HikBackend.SetSwitchValue (.ok ()) hik id v = .ok hikAfter) :
    HikBackend.GetSwitchValue hikAfter id = .ok (if v = 0 then 0 else 1) := by
  unfold HikBackend.SetSwitchValue at h
  have hg := hik_set_get _ _ _ _ h
  by_cases hv : v = 0
  · simp only [hv, if_true, if_pos rfl] at hg ⊢
    simp [HikBackend.GetSwitchValue, hg]
  · simp only [hv, if_false, if_neg hv] at hg ⊢
    simp [HikBackend.GetSwitchValue, hg]

theorem mi_set_then_value (mi miAfter : MiBackend) (id : Int) (s : Bool)
    (h : MiBackend.SetSwitch (.ok ()) mi id s = .ok miAfter) :
    MiBackend.GetSwitchValue miAfter id = .ok (if s then 1 else 0) := by
  unfold MiBackend.SetSwitch at h
  by_cases hb : id < 0 ∨ (mi.devices.length : Int) ≤ id
  · rw [dif_pos hb] at h; cases h
  · rw [dif_neg hb] at h
    injection h with hA
    subst hA
    unfold MiBackend.GetSwitchValue
    rw [dif_neg (by simpa [List.length_set] using hb)]
    simp [List.get_eq_getElem]

theorem mi_set_get_value (mi miAfter : MiBackend) (id : Int) (v : Rat)
    (h : MiBackend.SetSwitchValue (.ok ()) mi id v = .ok miAfter) :
    MiBackend.GetSwitchValue miAfter id = .ok (if v = 0 then 0 else 1) := by
  unfold MiBackend.SetSwitchValue at h
  have hg := mi_set_then_value _ _ _ _ h
  by_cases hv : v = 0
  · simp only [hv, if_pos rfl] at hg ⊢
    simpa using hg
  · simp only [hv, if_neg hv] at hg ⊢
    simpa using hg

theorem mi_set_then_switch (mi miAfter : MiBackend) (id : Int) (s : Bool)
    (hmax : MiBackend.GetMax mi id ≤ 1)
    (h : MiBackend.SetSwitch (.ok ()) mi id s = .ok miAfter) :
    MiBackend.GetSwitch miAfter id = .ok s := by
  unfold MiBackend.SetSwitch at h
  by_cases hb : id < 0 ∨ (mi.devices.length : Int) ≤ id
  · rw [dif_pos hb] at h; cases h
  · rw [dif_neg hb] at h
    injection h with hA
    subst hA
    have hmax2 : ((mi.devices.get ⟨id.toNat, by omega⟩).max : Rat) ≤ 1 := by
      unfold MiBackend.GetMax at hmax
      rwa [dif_neg hb] at hmax
    have hmax3 : (mi.devices.get ⟨id.toNat, by omega⟩).max ≤ 1 := by
      exact_mod_cast hmax2
    unfold MiBackend.GetSwitch
    rw [dif_neg (by simpa [List.length_set] using hb)]
    simp only [List.get_eq_getElem, List.length_set]
    simp only [List.getElem_set_self]
    rw [if_neg (by simpa using not_lt.mpr hmax3)]
    by_cases hs : s <;> simp [hs]

/-- A one-device ranged Mi plug (`min=0`, `max=100`), cached value 0. -/
def miDemo : MiBackend := ⟨[⟨"Plug", "", 0, 100, 1, true, 0⟩], true⟩

/-- `miDemo` after a successful set: cached value 1. -/
def miDemoAfter : MiBackend := ⟨[⟨"Plug", "", 0, 100, 1, true, 1⟩], true⟩

/-- C7 as stated is false: on the ranged Mi plug with `[min, max] = [0, 100]`,
`setValue(0, 50)` (50 is within the range) followed by `getValue(0)` returns
1, not 50 — `SetSwitchValue` coerces every non-zero value to the on-state
cache value 1. -/
theorem c7_counterexample :
    MiBackend.GetMin miDemo 0 = 0 ∧
    MiBackend.GetMax miDemo 0 = 100 ∧
    (0 : Rat) ≤ 50 ∧ (50 : Rat) ≤ 100 ∧
    MiBackend.SetSwitchValue (.ok ()) miDemo 0 50 = .ok miDemoAfter ∧
    MiBackend.GetSwitchValue miDemoAfter 0 = .ok 1 ∧
    (1 : Rat) ≠ 50 := by
  refine ⟨?_, ?_, by norm_num, by norm_num, ?_, ?_, by norm_num⟩
  · simp [MiBackend.GetMin, miDemo]
  · simp [MiBackend.GetMax, miDemo]
  · have h50 : (50 : Rat) ≠ 0 := by norm_num
    simp [MiBackend.SetSwitchValue, MiBackend.SetSwitch, miDemo, miDemoAfter, h50]
  · simp [MiBackend.GetSwitchValue, miDemoAfter]

/-- C7 (amended): for the cache-backed backends and a successful hardware
exchange, `setState(i, true)` followed by `getState(i)` returns `true`
(for Mi, provided the device is an on/off device, `max ≤ 1`; a ranged Mi
device's `getState` errors instead), and `setValue(i, v)` followed by
`getValue(i)` returns 1 when `v ≠ 0` and 0 when `v = 0` — so the numeric
round-trip holds exactly for `v ∈ {0, 1}`, not for every `v ∈ [min, max]`. -/
theorem c7_roundtrip (hik hikA hikB hikC : HikBackend) (mi miA miV miVA : MiBackend)
    (id1 id2 id3 id4 : Int) (v v2 : Rat)
    (h1 : HikBackend.SetSwitch (.ok ()) hik id1 true = .ok hikA)
    (hmax : MiBackend.GetMax mi id2 ≤ 1)
    (h2 : MiBackend.SetSwitch (.ok ()) mi id2 true = .ok miA)
    (h3 : HikBackend.SetSwitchValue (.ok ()) hikB id3 v = .ok hikC)
    (h4 : MiBackend.SetSwitchValue (.ok ()) miV id4 v2 = .ok miVA) :
    HikBackend.GetSwitch hikA id1 = .ok true ∧
    MiBackend.GetSwitch miA id2 = .ok true ∧
    HikBackend.GetSwitchValue hikC id3 = .ok (if v = 0 then 0 else 1) ∧
    MiBackend.GetSwitchValue miVA id4 = .ok (if v2 = 0 then 0 else 1) :=
  ⟨hik_set_get _ _ _ _ h1, mi_set_then_switch _ _ _ _ hmax h2,
   hik_set_get_value _ _ _ _ h3, mi_set_get_value _ _ _ _ h4⟩

/-- A one-camera Hikvision backend, IR off. -/
def hikDemo : HikBackend := ⟨[⟨"Cam", "", false⟩], true⟩

/-- `hikDemo` after a successful set: IR on. -/
def hikDemoOn : HikBackend := ⟨[⟨"Cam", "", true⟩], true⟩

/-- A one-device on/off Mi plug (`max = 1`), cached value 0. -/
def miOnOff : MiBackend := ⟨[⟨"P", "", 0, 1, 1, true, 0⟩], true⟩

/-- `miOnOff` after a successful set to on: cached value 1. -/
def miOnOffOn : MiBackend := ⟨[⟨"P", "", 0, 1, 1, true, 1⟩], true⟩

/-- Witness for C7 (amended) on concrete one-switch backends, with the
numeric set using `v = 3` for Hikvision and `v2 = 0` for Mi. -/
theorem c7_witness :
    (HikBackend.SetSwitch (.ok ()) hikDemo 0 true = .ok hikDemoOn ∧
     MiBackend.GetMax miOnOff 0 ≤ 1 ∧
     MiBackend.SetSwitch (.ok ()) miOnOff 0 true = .ok miOnOffOn ∧
     HikBackend.SetSwitchValue (.ok ()) hikDemo 0 3 = .ok hikDemoOn ∧
     MiBackend.SetSwitchValue (.ok ()) miOnOff 0 0 = .ok miOnOff) ∧
    (HikBackend.GetSwitch hikDemoOn 0 = .ok true ∧
     MiBackend.GetSwitch miOnOffOn 0 = .ok true ∧
     HikBackend.GetSwitchValue hikDemoOn 0 = .ok (if (3 : Rat) = 0 then 0 else 1) ∧
     MiBackend.GetSwitchValue miOnOff 0 = .ok (if (0 : Rat) = 0 then 0 else 1)) :=
  ⟨⟨by simp [HikBackend.SetSwitch, hikDemo, hikDemoOn],
    by norm_num [MiBackend.GetMax, miOnOff],
    by simp [MiBackend.SetSwitch, miOnOff, miOnOffOn],
    by norm_num [HikBackend.SetSwitchValue, HikBackend.SetSwitch, hikDemo, hikDemoOn],
    by norm_num [MiBackend.SetSwitchValue, MiBackend.SetSwitch, miOnOff]⟩,
   c7_roundtrip hikDemo hikDemoOn hikDemo hikDemoOn miOnOff miOnOffOn miOnOff miOnOff
     0 0 0 0 3 0
     (by simp [HikBackend.SetSwitch, hikDemo, hikDemoOn])
     (by norm_num [MiBackend.GetMax, miOnOff])
     (by simp [MiBackend.SetSwitch, miOnOff, miOnOffOn])
     (by norm_num [HikBackend.SetSwitchValue, HikBackend.SetSwitch, hikDemo, hikDemoOn])
     (by norm_num [MiBackend.SetSwitchValue, MiBackend.SetSwitch, miOnOff])⟩

/-! ## C8 -/

/-- C8: once the `Connected` parameter parses, `handleSetConnected` fans the
connect/disconnect call out to every registered backend in order (the `j`-th
logged call targets the `j`-th backend) and replies success — HTTP 200,
error code 0, empty error message — for every backend list, including
backends whose `Connect()` fails; no individual failure reaches the client. -/
theorem c8_connected_fanout (counter : Nat) (bs : List SwitchBackend)
    (req : Request) (flag : Bool) (j : Nat)
    (h : getConnected req = .ok flag) :
    (handleSetConnected counter (NewRouter bs) req).1.status = 200 ∧
    (handleSetConnected counter (NewRouter bs) req).1.base.ErrorNumber = 0 ∧
    (handleSetConnected counter (NewRouter bs) req).1.base.ErrorMessage = "" ∧
    (handleSetConnected counter (NewRouter bs) req).2.2.length = bs.length ∧
    (handleSetConnected counter (NewRouter bs) req).2.2[j]? =
      bs[j]?.map (fun b =>
        if flag then LifecycleCall.connectCall j b.connect
        else LifecycleCall.disconnectCall j) := by
  refine ⟨?_, ?_, ?_, ?_, ?_⟩ <;>
    simp [handleSetConnected, h, prepareResponse, NewRouter, fanOutFrom_length]
  simpa using fanOutFrom_getElem 0 bs flag j

/-- Witness for C8 on a backend whose `Connect()` fails. -/
theorem c8_witness :
    getConnected reqConnTrue = .ok true ∧
    ((handleSetConnected 0 (NewRouter [failBackend]) reqConnTrue).1.status = 200 ∧
     (handleSetConnected 0 (NewRouter [failBackend]) reqConnTrue).1.base.ErrorNumber = 0 ∧
     (handleSetConnected 0 (NewRouter [failBackend]) reqConnTrue).1.base.ErrorMessage = "" ∧
     (handleSetConnected 0 (NewRouter [failBackend]) reqConnTrue).2.2.length =
       [failBackend].length ∧
     (handleSetConnected 0 (NewRouter [failBackend]) reqConnTrue).2.2[0]? =
       [failBackend][0]?.map (fun b =>
         if true then LifecycleCall.connectCall 0 b.connect
         else LifecycleCall.disconnectCall 0)) :=
  ⟨by rfl, c8_connected_fanout 0 [failBackend] reqConnTrue true 0 (by rfl)⟩

/-! ## C10 -/

/-- C10: every response envelope consumes a freshly allocated server
transaction ID — on every path of `handleGetSwitchName`, `handleSetSwitch`,
`handleSetConnected` (validation error, backend error or success), on
`handleNotSupported`, and on `badRequest`, the counter advances by exactly
one increment and the response carries the new value, so error responses
participate in the same increasing sequence as successes. -/
theorem c10_txn_on_all_paths (counter : Nat) (r : Router) (req : Request) (e : Err) :
    (handleGetSwitchName counter r req).2 = nextTxnID counter ∧
    (handleGetSwitchName counter r req).1.base.ServerTransactionID = nextTxnID counter ∧
    (handleSetSwitch counter r req).2 = nextTxnID counter ∧
    (handleSetSwitch counter r req).1.base.ServerTransactionID = nextTxnID counter ∧
    (handleSetConnected counter r req).2.1 = nextTxnID counter ∧
    (handleSetConnected counter r req).1.base.ServerTransactionID = nextTxnID counter ∧
    (handleNotSupported counter req).2 = nextTxnID counter ∧
    (handleNotSupported counter req).1.base.ServerTransactionID = nextTxnID counter ∧
    (badRequest counter req e).2 = nextTxnID counter ∧
    (badRequest counter req e).1.base.ServerTransactionID = nextTxnID counter := by
  have hbr : ∀ e2 : Err, (badRequest counter req e2).2 = nextTxnID counter ∧
      (badRequest counter req e2).1.base.ServerTransactionID = nextTxnID counter :=
    fun _ => ⟨rfl, rfl⟩
  have hgn : (handleGetSwitchName counter r req).2 = nextTxnID counter ∧
      (handleGetSwitchName counter r req).1.base.ServerTransactionID = nextTxnID counter := by
    cases h1 : getSwitchID req with
    | error e2 => simp only [handleGetSwitchName, h1]; exact hbr e2
    | ok id => simp only [handleGetSwitchName, h1]; exact ⟨rfl, rfl⟩
  have hss : (handleSetSwitch counter r req).2 = nextTxnID counter ∧
      (handleSetSwitch counter r req).1.base.ServerTransactionID = nextTxnID counter := by
    cases h1 : getSwitchID req with
    | error e2 => simp only [handleSetSwitch, h1]; exact hbr e2
    | ok id =>
        cases h2 : getSwitchState req with
        | error e2 => simp only [handleSetSwitch, h1, h2]; exact hbr e2
        | ok st =>
            cases h3 : r.SetSwitch id st with
            | error e2 => simp only [handleSetSwitch, h1, h2, h3]; exact hbr e2
            | ok u => simp only [handleSetSwitch, h1, h2, h3]; exact ⟨rfl, rfl⟩
  have hsc : (handleSetConnected counter r req).2.1 = nextTxnID counter ∧
      (handleSetConnected counter r req).1.base.ServerTransactionID = nextTxnID counter := by
    cases h1 : getConnected req with
    | error e2 => simp only [handleSetConnected, h1]; exact ⟨rfl, rfl⟩
    | ok c2 => simp only [handleSetConnected, h1]; exact ⟨rfl, rfl⟩
  exact ⟨hgn.1, hgn.2, hss.1, hss.2, hsc.1, hsc.2, rfl, rfl, (hbr e).1, (hbr e).2⟩
